import Mathlib

/-!
Shallow embedding of the benchmark orchestration core of the repository
(src/benchmark.py), together with theorems checking the natural-language
specification against it.

Modelling conventions:
* Python floats are modelled as rationals (ℚ); all arithmetic in the
  source is exact on the values we reason about.
* Console output is modelled as a list of logical lines.  The pair
  `print(f"\nRunning: {name}...", end=" ")` followed by the
  success/failure `print` forms one physical console line and is
  modelled as one string.  Fixed-width padding and `:.6f` decimal
  rendering of numbers are elided (numbers are rendered via `toString`).
* Files are modelled by their parsed content: the CSV file as an
  optional list of rows (each a list of cells), `none` meaning no file
  was written; the JSON results file as the list of aggregates it
  serializes.
* The query callables and their SQL are opaque: execution of a query is
  modelled by an environment `env : String → Nat → Except String Sample`
  giving, for a query name and a run index, either the measured sample
  or the raised error's message.
-/

/-- One observation of a single query execution (spec §3 `Sample`):
wall-clock latency, process CPU percent, memory delta (may be negative),
and result cardinality. -/
structure Sample where
  execution_time_seconds : ℚ
  cpu_percent : ℚ
  memory_delta_mb : ℚ
  row_count : ℕ
deriving DecidableEq

/-- The per-query metrics dictionary returned by `benchmark_query`
(module `performance_monitor`, not present under src/): keys
`query_name`, `runs`, `avg_execution_time`, `min_execution_time`,
`max_execution_time`, `avg_cpu_percent`, `avg_memory_mb`,
`rows_returned`. -/
structure AvgMetrics where
  query_name : String
  runs : ℕ
  avg_execution_time : ℚ
  min_execution_time : ℚ
  max_execution_time : ℚ
  avg_cpu_percent : ℚ
  avg_memory_mb : ℚ
  rows_returned : ℕ
deriving DecidableEq

/-- The durable per-query aggregate appended to the run's result
sequence: the metrics of `AvgMetrics` plus the metadata stamped on in
`run_all_benchmarks` (src/benchmark.py lines 99-105): `category`,
`dataset_size`, `timestamp`, with `avg_memory_mb` clamped to ≥ 0. -/
structure QueryAggregate where
  query_name : String
  runs : ℕ
  avg_execution_time : ℚ
  min_execution_time : ℚ
  max_execution_time : ℚ
  avg_cpu_percent : ℚ
  avg_memory_mb : ℚ
  rows_returned : ℕ
  category : String
  dataset_size : ℕ
  timestamp : String
deriving DecidableEq

/-- A catalogued query definition.  The callable and its argument tuple
are opaque to this development (execution is modelled by the
environment, keyed by the query's display name), so only the name is
retained. -/
structure QueryDef where
  name : String
deriving DecidableEq

/-- One entry of the `benchmark_queries` literal in `run_all_benchmarks`
(src/benchmark.py lines 39-78): a category label and its ordered query
definitions. -/
structure CategoryInfo where
  category : String
  queries : List QueryDef
deriving DecidableEq

/-- Python's built-in `sum` over a list of floats: a left fold from 0. -/
def pySum (l : List ℚ) : ℚ :=
  l.foldl (fun a b => a + b) 0

/-- Python's `statistics`-style mean: `sum(l) / len(l)` (as used on the
nonempty sample lists; on `[]` this is `0` in ℚ, a branch never reached
with ≥ 1 run). -/
def pyMean (l : List ℚ) : ℚ :=
  pySum l / (l.length : ℚ)

/-- Python's built-in `min` over a nonempty list (0 on `[]`, never
reached with ≥ 1 run). -/
def pyMin : List ℚ → ℚ
  | [] => 0
  | x :: xs => xs.foldl min x

/-- Python's built-in `max` over a nonempty list (0 on `[]`, never
reached with ≥ 1 run). -/
def pyMax : List ℚ → ℚ
  | [] => 0
  | x :: xs => xs.foldl max x

/-- Modelled from the spec: the Execution Sampler loop inside
`benchmark_query` (module `performance_monitor`, absent from src/).
Per spec §4.2/§4.3 the sampler is invoked `runs` times sequentially
(run indices `start, start+1, ...`); each invocation yields one
`Sample`, and any failure propagates immediately to the caller. -/
def runSamples (sampler : ℕ → Except String Sample) : ℕ → ℕ → Except String (List Sample)
  | _, 0 => Except.ok []
  | start, n + 1 =>
    match sampler start with
    | Except.error e => Except.error e
    | Except.ok s =>
      match runSamples sampler (start + 1) n with
      | Except.error e => Except.error e
      | Except.ok rest => Except.ok (s :: rest)

/-- Modelled from the spec: the Statistical Aggregator reduction
(spec §4.4) applied by `benchmark_query` to the N collected samples:
mean/min/max of execution time, mean CPU, mean memory delta (clamping
happens later, in the Runner), `rows_returned` from the last sample,
`runs` the requested repeat count. -/
def aggregateSamples (query_name : String) (runs : ℕ) (samples : List Sample) : AvgMetrics :=
  { query_name := query_name
    runs := runs
    avg_execution_time := pyMean (samples.map (fun s => s.execution_time_seconds))
    min_execution_time := pyMin (samples.map (fun s => s.execution_time_seconds))
    max_execution_time := pyMax (samples.map (fun s => s.execution_time_seconds))
    avg_cpu_percent := pyMean (samples.map (fun s => s.cpu_percent))
    avg_memory_mb := pyMean (samples.map (fun s => s.memory_delta_mb))
    rows_returned := ((samples.getLast?).map (fun s => s.row_count)).getD 0 }

/-- Modelled from the spec: `benchmark_query` from the
`performance_monitor` module (absent from src/): run the sampler
`runs` times and reduce the samples to the metrics dictionary; any
sampling failure propagates as the error. -/
def benchmark_query (query_name : String) (sampler : ℕ → Except String Sample)
    (runs : ℕ) : Except String AvgMetrics :=
  match runSamples sampler 0 runs with
  | Except.error e => Except.error e
  | Except.ok samples => Except.ok (aggregateSamples query_name runs samples)

/-- Lines 99-105 of src/benchmark.py: stamp `category`, `dataset_size`
and `timestamp` onto the metrics and clamp a negative `avg_memory_mb`
to 0, yielding the aggregate that is appended to `all_results`. -/
def stampMetrics (category : String) (dataset_size : ℕ) (now : String)
    (m : AvgMetrics) : QueryAggregate :=
  { query_name := m.query_name
    runs := m.runs
    avg_execution_time := m.avg_execution_time
    min_execution_time := m.min_execution_time
    max_execution_time := m.max_execution_time
    avg_cpu_percent := m.avg_cpu_percent
    avg_memory_mb := if m.avg_memory_mb < 0 then 0 else m.avg_memory_mb
    rows_returned := m.rows_returned
    category := category
    dataset_size := dataset_size
    timestamp := now }

/-- The body of the inner loop of `run_all_benchmarks` (src/benchmark.py
lines 87-113) for one query: on success, the stamped aggregate and the
console line `Running: NAME... ✓ Done (...)`; on failure, no aggregate
and the console line `Running: NAME... ✗ Error: MSG`. -/
def processQuery (env : String → ℕ → Except String Sample) (runs : ℕ)
    (category : String) (dataset_size : ℕ) (now : String) (q : QueryDef) :
    Option QueryAggregate × String :=
  match benchmark_query q.name (env q.name) runs with
  | Except.error e => (none, "Running: " ++ q.name ++ "... ✗ Error: " ++ e)
  | Except.ok m =>
    (some (stampMetrics category dataset_size now m),
     "Running: " ++ q.name ++ "... ✓ Done (" ++ toString m.avg_execution_time ++ "s)")

/-- The 80-character `=` separator printed by the banners. -/
def sepLine : String :=
  String.mk (List.replicate 80 '=')

/-- `run_all_benchmarks` (src/benchmark.py lines 20-115): iterate the
catalog's categories in declared order, within each category the query
definitions in declared order; successful queries append their stamped
aggregate, failing queries only print their error line and the loop
continues.  Returns the accumulated `all_results` and the console
lines. -/
def run_all_benchmarks (env : String → ℕ → Except String Sample)
    (catalog : List CategoryInfo) (dataset_size : ℕ) (runs : ℕ) (now : String) :
    List QueryAggregate × List String :=
  (catalog.flatMap (fun ci =>
      ci.queries.filterMap (fun q =>
        (processQuery env runs ci.category dataset_size now q).fst)),
   [sepLine, "RUNNING BENCHMARK FOR " ++ toString dataset_size ++ " ROWS", sepLine]
     ++ catalog.flatMap (fun ci =>
       [sepLine, ci.category ++ " QUERIES", sepLine]
         ++ ci.queries.map (fun q =>
           (processQuery env runs ci.category dataset_size now q).snd)))

/-- The concrete `benchmark_queries` catalog of `run_all_benchmarks`
(src/benchmark.py lines 39-78), commented-out entries excluded. -/
def benchmark_queries : List CategoryInfo :=
  [⟨"SIMPLE",
    [⟨"Simple: Profitable Movies"⟩,
     ⟨"Simple: Popular Recent Movies"⟩,
     ⟨"Simple: Long High Rated Movies"⟩,
     ⟨"Simple: Spanish Blockbusters"⟩]⟩,
   ⟨"COMPLEX",
    [⟨"Complex: Multi-Genre"⟩,
     ⟨"Complex: Genre+Country+Language"⟩,
     ⟨"Complex: Budget & Profit"⟩]⟩,
   ⟨"AGGREGATED",
    [⟨"Aggregate: Movies per Year"⟩,
     ⟨"Aggregate: Avg Rating per Genre"⟩,
     ⟨"Aggregate: Top Actors"⟩,
     ⟨"Aggregate: Yearly Trends"⟩,
     ⟨"Aggregate: Genre Combinations"⟩]⟩]

/-- All query definitions of a catalog, flattened in declared order. -/
def allQueryDefs (catalog : List CategoryInfo) : List QueryDef :=
  catalog.flatMap (fun ci => ci.queries)

/-- The `fieldnames` list of `save_results_to_csv` (src/benchmark.py
lines 124-128): the fixed CSV column order. -/
def csv_fieldnames : List String :=
  ["timestamp", "dataset_size", "category", "query_name", "runs",
   "avg_execution_time", "min_execution_time", "max_execution_time",
   "avg_cpu_percent", "avg_memory_mb", "rows_returned"]

/-- One CSV data row (src/benchmark.py lines 134-136): the aggregate's
values in `csv_fieldnames` order (every key is present on the
aggregate, so the `''` default of `result.get(key, '')` is never
used). -/
def csvRow (r : QueryAggregate) : List String :=
  [r.timestamp, toString r.dataset_size, r.category, r.query_name,
   toString r.runs, toString r.avg_execution_time,
   toString r.min_execution_time, toString r.max_execution_time,
   toString r.avg_cpu_percent, toString r.avg_memory_mb,
   toString r.rows_returned]

/-- `save_results_to_csv` (src/benchmark.py lines 118-138).  On an empty
result list it prints `No results to save!` and returns before opening
the file (no file content, modelled as `none`); otherwise it writes the
header row followed by one row per aggregate and prints the saved
message. -/
def save_results_to_csv (results : List QueryAggregate) (filename : String) :
    Option (List (List String)) × List String :=
  if results.isEmpty then
    (none, ["No results to save!"])
  else
    (some (csv_fieldnames :: results.map csvRow),
     ["✓ Results saved to: " ++ filename])

/-- `save_results_to_json` (src/benchmark.py lines 141-146): dump the
result list as a JSON document, unconditionally, and print the saved
message.  The written document is modelled by the aggregate list it
serializes. -/
def save_results_to_json (results : List QueryAggregate) (filename : String) :
    Option (List QueryAggregate) × List String :=
  (some results, ["✓ Results saved to: " ++ filename])

/-- The enriched JSON envelope `full_data` built at the end of `main`
(src/benchmark.py lines 264-271): exactly the keys `system_info`,
`database_stats`, `dataset_size`, `runs_per_query`, `timestamp`,
`results`. -/
structure FullReport where
  system_info : List (String × String)
  database_stats : List (String × String)
  dataset_size : ℕ
  runs_per_query : ℕ
  timestamp : String
  results : List QueryAggregate
deriving DecidableEq

/-- The tail of `main` (src/benchmark.py lines 257-274) restricted to
the JSON artifact: write the results document, read it back, wrap the
loaded document under the metadata envelope, and overwrite the file
with the envelope.  Returns the final file content and the console
lines of the JSON save. -/
def main_json_phase (sys_info db_stats : List (String × String))
    (dataset_size runs : ℕ) (now : String)
    (results : List QueryAggregate) (json_filename : String) :
    Option FullReport × List String :=
  match save_results_to_json results json_filename with
  | (none, lines) => (none, lines)
  | (some loaded, lines) =>
    (some { system_info := sys_info
            database_stats := db_stats
            dataset_size := dataset_size
            runs_per_query := runs
            timestamp := now
            results := loaded },
     lines)

/-- The category grouping of `print_summary` (src/benchmark.py lines
159-164): a Python dict built by insertion, so categories appear in
first-occurrence order and each holds its results in original order. -/
def groupByCategory (results : List QueryAggregate) :
    List (String × List QueryAggregate) :=
  results.foldl
    (fun acc r =>
      if acc.any (fun p => p.fst == r.category) then
        acc.map (fun p =>
          if p.fst == r.category then (p.fst, p.snd ++ [r]) else p)
      else
        acc ++ [(r.category, [r])])
    []

/-- One digest table row of `print_summary` (src/benchmark.py lines
171-177): name truncated to 48 characters, mean time, row count, CPU
(fixed-width padding elided). -/
def digestRow (r : QueryAggregate) : String :=
  r.query_name.take 48 ++ " " ++ toString r.avg_execution_time ++ " "
    ++ toString r.rows_returned ++ " " ++ toString r.avg_cpu_percent

/-- The per-category block of `print_summary` (src/benchmark.py lines
166-177). -/
def categoryBlock (p : String × List QueryAggregate) : List String :=
  [p.fst ++ " QUERIES:", "Query Name Time (s) Rows CPU %",
   String.mk (List.replicate 80 '-')]
    ++ p.snd.map digestRow

/-- `print_summary` (src/benchmark.py lines 149-191): on an empty result
list it returns immediately, printing nothing; otherwise the banner,
the per-category digest, and the overall statistics, whose totals are
computed exactly as in lines 184-186. -/
def print_summary (results : List QueryAggregate) : List String :=
  match results with
  | [] => []
  | r0 :: _ =>
    [sepLine, "BENCHMARK SUMMARY", sepLine]
      ++ (groupByCategory results).flatMap categoryBlock
      ++ [sepLine, "OVERALL STATISTICS", sepLine,
          "Total Queries Run: " ++ toString results.length,
          "Average Query Time: "
            ++ toString (pySum (results.map (fun r => r.avg_execution_time))
                / (results.length : ℚ)) ++ " seconds",
          "Total Execution Time: "
            ++ toString (pySum (results.map
                (fun r => r.avg_execution_time * (r.runs : ℚ)))) ++ " seconds",
          "Dataset Size: " ++ toString r0.dataset_size ++ " rows"]

/-- Whether running a query under the environment succeeds (all `runs`
sampler invocations return a sample). -/
def querySucceeds (env : String → ℕ → Except String Sample) (runs : ℕ)
    (q : QueryDef) : Bool :=
  match benchmark_query q.name (env q.name) runs with
  | Except.ok _ => true
  | Except.error _ => false

/-- A fixture sample with a negative memory delta. -/
def testSample : Sample :=
  { execution_time_seconds := 1 / 100
    cpu_percent := 5
    memory_delta_mb := -3
    row_count := 7 }

/-- A fixture environment where every invocation succeeds with
`testSample`. -/
def testEnv : String → ℕ → Except String Sample :=
  fun _ _ => Except.ok testSample

/-- A one-query fixture catalog. -/
def testCatalog : List CategoryInfo :=
  [⟨"SIMPLE", [⟨"Q1"⟩]⟩]

/-- The aggregate the fixture run produces for query `Q1` with two
runs. -/
def testAgg : QueryAggregate :=
  stampMetrics "SIMPLE" 5 "T" (aggregateSamples "Q1" 2 [testSample, testSample])

/-- A two-query fixture catalog whose second query always fails. -/
def failCatalog : List CategoryInfo :=
  [⟨"SIMPLE", [⟨"GOOD"⟩, ⟨"BAD"⟩]⟩]

/-- A fixture environment failing exactly on the query named `BAD`. -/
def failEnv : String → ℕ → Except String Sample :=
  fun name _ =>
    if name == "BAD" then Except.error "boom" else Except.ok testSample

/- Helper lemmas. -/

lemma foldl_add_eq (l : List ℚ) (a : ℚ) :
    l.foldl (fun x y => x + y) a = a + l.sum := by
  induction l generalizing a with
  | nil => simp
  | cons b t ih => simp [ih, List.sum_cons, add_assoc]

lemma pySum_eq_sum (l : List ℚ) : pySum l = l.sum := by
  simp [pySum, foldl_add_eq]

lemma foldl_min_le_init (l : List ℚ) (a : ℚ) : l.foldl min a ≤ a := by
  induction l generalizing a with
  | nil => exact le_refl a
  | cons b t ih => exact le_trans (ih (min a b)) (min_le_left a b)

lemma foldl_min_le_mem (l : List ℚ) (a x : ℚ) (hx : x ∈ l) :
    l.foldl min a ≤ x := by
  induction l generalizing a with
  | nil => cases hx
  | cons b t ih =>
    rcases List.mem_cons.mp hx with h | h
    · subst h
      exact le_trans (foldl_min_le_init t (min a x)) (min_le_right a x)
    · exact ih (min a b) h

lemma pyMin_le_mem (l : List ℚ) (x : ℚ) (hx : x ∈ l) : pyMin l ≤ x := by
  cases l with
  | nil => cases hx
  | cons a t =>
    rcases List.mem_cons.mp hx with h | h
    · subst h
      exact foldl_min_le_init t x
    · exact foldl_min_le_mem t a x h

lemma init_le_foldl_max (l : List ℚ) (a : ℚ) : a ≤ l.foldl max a := by
  induction l generalizing a with
  | nil => exact le_refl a
  | cons b t ih => exact le_trans (le_max_left a b) (ih (max a b))

lemma mem_le_foldl_max (l : List ℚ) (a x : ℚ) (hx : x ∈ l) :
    x ≤ l.foldl max a := by
  induction l generalizing a with
  | nil => cases hx
  | cons b t ih =>
    rcases List.mem_cons.mp hx with h | h
    · subst h
      exact le_trans (le_max_right a x) (init_le_foldl_max t (max a x))
    · exact ih (max a b) h

lemma mem_le_pyMax (l : List ℚ) (x : ℚ) (hx : x ∈ l) : x ≤ pyMax l := by
  cases l with
  | nil => cases hx
  | cons a t =>
    rcases List.mem_cons.mp hx with h | h
    · subst h
      exact init_le_foldl_max t x
    · exact mem_le_foldl_max t a x h

lemma pyMin_le_pyMean (l : List ℚ) (hl : l ≠ []) : pyMin l ≤ pyMean l := by
  have hlen : 0 < (l.length : ℚ) := by
    have : 0 < l.length := List.length_pos.mpr hl
    exact_mod_cast this
  have hsum : (l.length : ℚ) * pyMin l ≤ l.sum := by
    have h := List.card_nsmul_le_sum l (pyMin l) (fun x hx => pyMin_le_mem l x hx)
    rwa [nsmul_eq_mul] at h
  rw [pyMean, pySum_eq_sum, le_div_iff₀ hlen, mul_comm]
  exact hsum

lemma pyMean_le_pyMax (l : List ℚ) (hl : l ≠ []) : pyMean l ≤ pyMax l := by
  have hlen : 0 < (l.length : ℚ) := by
    have : 0 < l.length := List.length_pos.mpr hl
    exact_mod_cast this
  have hsum : l.sum ≤ (l.length : ℚ) * pyMax l := by
    have h := List.sum_le_card_nsmul l (pyMax l) (fun x hx => mem_le_pyMax l x hx)
    rwa [nsmul_eq_mul] at h
  rw [pyMean, pySum_eq_sum, div_le_iff₀ hlen, mul_comm]
  exact hsum

lemma runSamples_ok_length (sampler : ℕ → Except String Sample) :
    ∀ (n start : ℕ) (l : List Sample),
      runSamples sampler start n = Except.ok l → l.length = n := by
  intro n
  induction n with
  | zero =>
    intro start l h
    simp only [runSamples] at h
    cases h
    rfl
  | succ k ih =>
    intro start l h
    simp only [runSamples] at h
    cases hs : sampler start with
    | error e => rw [hs] at h; cases h
    | ok s =>
      rw [hs] at h
      cases hr : runSamples sampler (start + 1) k with
      | error e => rw [hr] at h; cases h
      | ok rest =>
        rw [hr] at h
        cases h
        simp [ih (start + 1) rest hr]

lemma benchmark_query_ok (name : String) (sampler : ℕ → Except String Sample)
    (runs : ℕ) (m : AvgMetrics)
    (h : benchmark_query name sampler runs = Except.ok m) :
    ∃ samples, runSamples sampler 0 runs = Except.ok samples
      ∧ samples.length = runs ∧ m = aggregateSamples name runs samples := by
  unfold benchmark_query at h
  cases hr : runSamples sampler 0 runs with
  | error e => rw [hr] at h; cases h
  | ok samples =>
    rw [hr] at h
    cases h
    exact ⟨samples, rfl, runSamples_ok_length sampler runs 0 samples hr, rfl⟩

lemma mem_run_all_benchmarks
    (env : String → ℕ → Except String Sample) (catalog : List CategoryInfo)
    (ds runs : ℕ) (now : String) (a : QueryAggregate)
    (ha : a ∈ (run_all_benchmarks env catalog ds runs now).fst) :
    ∃ ci ∈ catalog, ∃ q ∈ ci.queries, ∃ m,
      benchmark_query q.name (env q.name) runs = Except.ok m
        ∧ a = stampMetrics ci.category ds now m := by
  simp only [run_all_benchmarks, List.mem_flatMap, List.mem_filterMap] at ha
  obtain ⟨ci, hci, q, hq, hpq⟩ := ha
  refine ⟨ci, hci, q, hq, ?_⟩
  unfold processQuery at hpq
  cases hb : benchmark_query q.name (env q.name) runs with
  | error e => rw [hb] at hpq; cases hpq
  | ok m =>
    rw [hb] at hpq
    simp only [Option.some.injEq] at hpq
    exact ⟨m, rfl, hpq.symm⟩

/-- C2 counterexample: exporting the empty aggregate sequence to the
tabular format does NOT produce a file with only the header row — the
exporter returns before opening the file (no file content), printing
`No results to save!`. -/
theorem spec_c2_counterexample :
    (save_results_to_csv [] "benchmark_results.csv").fst = none
      ∧ (save_results_to_csv [] "benchmark_results.csv").snd
          = ["No results to save!"] :=
  ⟨rfl, rfl⟩

/-- C2 (amended): on the empty aggregate sequence the tabular exporter
writes no file at all and emits the warning diagnostic; for every
non-empty aggregate sequence the written file starts with the fixed
header row. -/
theorem spec_c2 (results : List QueryAggregate) (filename : String)
    (hne : results ≠ []) :
    (save_results_to_csv results filename).fst
        = some (csv_fieldnames :: results.map csvRow)
      ∧ (save_results_to_csv results filename).snd
          = ["✓ Results saved to: " ++ filename] := by
  cases results with
  | nil => exact absurd rfl hne
  | cons r t => exact ⟨rfl, rfl⟩

/-- Witness for C2 (amended) at a concrete non-empty sequence. -/
theorem spec_c2_witness :
    (save_results_to_csv [testAgg] "results.csv").fst
        = some (csv_fieldnames :: [testAgg].map csvRow)
      ∧ (save_results_to_csv [testAgg] "results.csv").snd
          = ["✓ Results saved to: " ++ "results.csv"] :=
  spec_c2 [testAgg] "results.csv" (List.cons_ne_nil testAgg [])

/-- C3: every aggregate in the result sequence of `run_all_benchmarks`
has a non-negative `avg_memory_mb`, and whenever the computed mean
memory delta is negative the stamped (persisted) value is exactly 0. -/
theorem spec_c3 (env : String → ℕ → Except String Sample)
    (catalog : List CategoryInfo) (ds runs : ℕ) (now : String) :
    (∀ a ∈ (run_all_benchmarks env catalog ds runs now).fst,
        0 ≤ a.avg_memory_mb)
      ∧ ∀ (cat : String) (m : AvgMetrics), m.avg_memory_mb < 0 →
          (stampMetrics cat ds now m).avg_memory_mb = 0 := by
  constructor
  · intro a ha
    obtain ⟨ci, _, q, _, m, _, ha'⟩ :=
      mem_run_all_benchmarks env catalog ds runs now a ha
    subst ha'
    simp only [stampMetrics]
    split
    · exact le_refl 0
    · next h => exact le_of_not_lt h
  · intro cat m hm
    simp [stampMetrics, hm]

/-- Witness for C3 at the fixture run (all memory deltas negative). -/
theorem spec_c3_witness :
    0 ≤ testAgg.avg_memory_mb
      ∧ (stampMetrics "SIMPLE" 5 "T"
          (aggregateSamples "Q1" 2 [testSample, testSample])).avg_memory_mb
          = 0 := by
  have h := spec_c3 testEnv testCatalog 5 2 "T"
  exact ⟨h.1 testAgg (show testAgg ∈ [testAgg] from List.mem_singleton.mpr rfl),
    h.2 "SIMPLE" (aggregateSamples "Q1" 2 [testSample, testSample])
      (by norm_num [aggregateSamples, pyMean, pySum, testSample])⟩

/-- C4: for N ≥ 1 and a catalogued query whose N sampler invocations
all succeed, `run_all_benchmarks` yields an aggregate for it whose
`runs` equals the requested N, whose avg/min/max execution times are
the mean/minimum/maximum of `execution_time_seconds` over the N
samples, and which satisfies min ≤ avg ≤ max. -/
theorem spec_c4 (env : String → ℕ → Except String Sample)
    (catalog : List CategoryInfo) (ds runs : ℕ) (now : String)
    (ci : CategoryInfo) (q : QueryDef) (samples : List Sample)
    (hruns : 1 ≤ runs) (hci : ci ∈ catalog) (hq : q ∈ ci.queries)
    (hs : runSamples (env q.name) 0 runs = Except.ok samples) :
    ∃ a, a = stampMetrics ci.category ds now (aggregateSamples q.name runs samples)
      ∧ a ∈ (run_all_benchmarks env catalog ds runs now).fst
      ∧ a.runs = runs
      ∧ a.avg_execution_time
          = pyMean (samples.map (fun s => s.execution_time_seconds))
      ∧ a.min_execution_time
          = pyMin (samples.map (fun s => s.execution_time_seconds))
      ∧ a.max_execution_time
          = pyMax (samples.map (fun s => s.execution_time_seconds))
      ∧ a.min_execution_time ≤ a.avg_execution_time
      ∧ a.avg_execution_time ≤ a.max_execution_time := by
  have hlen : samples.length = runs :=
    runSamples_ok_length (env q.name) runs 0 samples hs
  have hsne : samples ≠ [] := by
    intro hnil
    rw [hnil] at hlen
    simp only [List.length_nil] at hlen
    omega
  have htne : samples.map (fun s => s.execution_time_seconds) ≠ [] := by
    simpa using hsne
  refine ⟨_, rfl, ?_, rfl, rfl, rfl, rfl, ?_, ?_⟩
  · simp only [run_all_benchmarks, List.mem_flatMap, List.mem_filterMap]
    refine ⟨ci, hci, q, hq, ?_⟩
    simp [processQuery, benchmark_query, hs]
  · exact pyMin_le_pyMean _ htne
  · exact pyMean_le_pyMax _ htne

/-- Witness for C4 at the fixture run with N = 2. -/
theorem spec_c4_witness :
    ∃ a, a = stampMetrics "SIMPLE" 5 "T"
          (aggregateSamples "Q1" 2 [testSample, testSample])
      ∧ a ∈ (run_all_benchmarks testEnv testCatalog 5 2 "T").fst
      ∧ a.runs = 2
      ∧ a.avg_execution_time
          = pyMean ([testSample, testSample].map (fun s => s.execution_time_seconds))
      ∧ a.min_execution_time
          = pyMin ([testSample, testSample].map (fun s => s.execution_time_seconds))
      ∧ a.max_execution_time
          = pyMax ([testSample, testSample].map (fun s => s.execution_time_seconds))
      ∧ a.min_execution_time ≤ a.avg_execution_time
      ∧ a.avg_execution_time ≤ a.max_execution_time :=
  spec_c4 testEnv testCatalog 5 2 "T" ⟨"SIMPLE", [⟨"Q1"⟩]⟩ ⟨"Q1"⟩
    [testSample, testSample] (by decide)
    (List.mem_singleton.mpr rfl) (List.mem_singleton.mpr rfl) rfl

/-- C5: enriching the freshly written structured report is a
read-modify-write producing exactly the envelope
`{system_info, database_stats, dataset_size, runs_per_query, timestamp,
results}` whose `results` is the originally exported aggregate sequence
unchanged, and the file ends up overwritten with that envelope. -/
theorem spec_c5 (sys_info db_stats : List (String × String))
    (ds runs : ℕ) (now : String) (results : List QueryAggregate)
    (fname : String) :
    (main_json_phase sys_info db_stats ds runs now results fname).fst
      = some { system_info := sys_info
               database_stats := db_stats
               dataset_size := ds
               runs_per_query := runs
               timestamp := now
               results := results } :=
  rfl

/-- C6: whenever the tabular exporter writes a file, its content is the
fixed header row — timestamp, dataset size, category, query name, run
count, avg/min/max execution time, CPU percent, memory, row count —
followed by one data row per aggregate with cells in that same order. -/
theorem spec_c6 (results : List QueryAggregate) (filename : String)
    (content : List (List String))
    (hw : (save_results_to_csv results filename).fst = some content) :
    content
      = ["timestamp", "dataset_size", "category", "query_name", "runs",
         "avg_execution_time", "min_execution_time", "max_execution_time",
         "avg_cpu_percent", "avg_memory_mb", "rows_returned"]
        :: results.map (fun r =>
          [r.timestamp, toString r.dataset_size, r.category, r.query_name,
           toString r.runs, toString r.avg_execution_time,
           toString r.min_execution_time, toString r.max_execution_time,
           toString r.avg_cpu_percent, toString r.avg_memory_mb,
           toString r.rows_returned]) := by
  cases results with
  | nil => cases hw
  | cons r t =>
    simp only [save_results_to_csv, List.isEmpty_cons, if_neg] at hw
    cases hw
    rfl

/-- Witness for C6 at a concrete written file. -/
theorem spec_c6_witness :
    csv_fieldnames :: [testAgg].map csvRow
      = ["timestamp", "dataset_size", "category", "query_name", "runs",
         "avg_execution_time", "min_execution_time", "max_execution_time",
         "avg_cpu_percent", "avg_memory_mb", "rows_returned"]
        :: [testAgg].map (fun r =>
          [r.timestamp, toString r.dataset_size, r.category, r.query_name,
           toString r.runs, toString r.avg_execution_time,
           toString r.min_execution_time, toString r.max_execution_time,
           toString r.avg_cpu_percent, toString r.avg_memory_mb,
           toString r.rows_returned]) :=
  spec_c6 [testAgg] "results.csv" (csv_fieldnames :: [testAgg].map csvRow) rfl

/-- C9: on the empty result sequence `print_summary` returns
immediately, printing nothing (its division by the result count and its
access to the first result are never reached). -/
theorem spec_c9 : print_summary [] = [] :=
  rfl

/-- C10: the structured (JSON) exporter writes the document for every
input sequence — the empty one included, for which the file holds the
empty list — always prints the saved message, and never emits the
empty-input warning of the tabular exporter. -/
theorem spec_c10 (results : List QueryAggregate) (filename : String) :
    (save_results_to_json results filename).fst = some results
      ∧ (save_results_to_json results filename).snd
          = ["✓ Results saved to: " ++ filename]
      ∧ "No results to save!" ∉ (save_results_to_json results filename).snd := by
  refine ⟨rfl, rfl, ?_⟩
  intro hmem
  simp only [save_results_to_json, List.mem_singleton] at hmem
  have hlen := congrArg String.length hmem
  rw [String.length_append] at hlen
  have h1 : ("No results to save!" : String).length = 19 := rfl
  have h2 : ("✓ Results saved to: " : String).length = 20 := rfl
  rw [h1, h2] at hlen
  omega

/-- C7: for a non-empty result sequence the Summary Printer's overall
statistics are the count of aggregates, the arithmetic mean of the
per-aggregate `avg_execution_time` values, and the sum over aggregates
of `avg_execution_time * runs`. -/
theorem spec_c7 (r0 : QueryAggregate) (rest : List QueryAggregate) :
    ∃ pre, print_summary (r0 :: rest)
      = pre
        ++ ["Total Queries Run: " ++ toString (r0 :: rest).length,
            "Average Query Time: "
              ++ toString (pySum ((r0 :: rest).map (fun r => r.avg_execution_time))
                  / (((r0 :: rest).length : ℕ) : ℚ)) ++ " seconds",
            "Total Execution Time: "
              ++ toString (pySum ((r0 :: rest).map
                  (fun r => r.avg_execution_time * (r.runs : ℚ)))) ++ " seconds",
            "Dataset Size: " ++ toString r0.dataset_size ++ " rows"] := by
  refine ⟨[sepLine, "BENCHMARK SUMMARY", sepLine]
    ++ (groupByCategory (r0 :: rest)).flatMap categoryBlock
    ++ [sepLine, "OVERALL STATISTICS", sepLine], ?_⟩
  simp [print_summary, List.append_assoc]

/- Helper lemmas for the ordering and failure-isolation claims. -/

lemma processQuery_snd_of_error (env : String → ℕ → Except String Sample)
    (runs : ℕ) (cat : String) (ds : ℕ) (now : String) (q : QueryDef)
    (e : String) (hfail : benchmark_query q.name (env q.name) runs = Except.error e) :
    (processQuery env runs cat ds now q).snd
      = "Running: " ++ q.name ++ "... ✗ Error: " ++ e := by
  simp [processQuery, hfail]

lemma querySucceeds_of_ok (env : String → ℕ → Except String Sample)
    (runs : ℕ) (q : QueryDef) (m : AvgMetrics)
    (hb : benchmark_query q.name (env q.name) runs = Except.ok m) :
    querySucceeds env runs q = true := by
  simp [querySucceeds, hb]

lemma querySucceeds_of_error (env : String → ℕ → Except String Sample)
    (runs : ℕ) (q : QueryDef) (e : String)
    (hb : benchmark_query q.name (env q.name) runs = Except.error e) :
    querySucceeds env runs q = false := by
  simp [querySucceeds, hb]

lemma processQuery_fst_isSome (env : String → ℕ → Except String Sample)
    (runs : ℕ) (cat : String) (ds : ℕ) (now : String) (q : QueryDef) :
    (processQuery env runs cat ds now q).fst.isSome = querySucceeds env runs q := by
  unfold processQuery querySucceeds
  cases benchmark_query q.name (env q.name) runs <;> rfl

lemma length_filterMap_eq_countP {α β : Type} (f : α → Option β) (l : List α) :
    (l.filterMap f).length = l.countP (fun x => (f x).isSome) := by
  induction l with
  | nil => rfl
  | cons a t ih =>
    cases hf : f a <;>
      simp [List.filterMap_cons, hf, List.countP_cons, ih]

lemma countP_add_countP_not {α : Type} (p : α → Bool) (l : List α) :
    l.countP p + l.countP (fun a => !(p a)) = l.length := by
  induction l with
  | nil => rfl
  | cons a t ih =>
    simp only [List.countP_cons, List.length_cons]
    cases p a <;> simp <;> omega

lemma results_length_eq_countP (env : String → ℕ → Except String Sample)
    (catalog : List CategoryInfo) (ds runs : ℕ) (now : String) :
    (run_all_benchmarks env catalog ds runs now).fst.length
      = (allQueryDefs catalog).countP (querySucceeds env runs) := by
  induction catalog with
  | nil => rfl
  | cons ci t ih =>
    simp only [run_all_benchmarks, allQueryDefs, List.flatMap_cons,
      List.length_append, List.countP_append] at ih ⊢
    congr 1
    rw [length_filterMap_eq_countP]
    exact List.countP_congr (fun q _ => by
      rw [processQuery_fst_isSome env runs ci.category ds now q])

lemma filterMap_names_of_all_ok (env : String → ℕ → Except String Sample)
    (runs : ℕ) (cat : String) (ds : ℕ) (now : String) (qs : List QueryDef)
    (h : ∀ q ∈ qs, querySucceeds env runs q = true) :
    (qs.filterMap (fun q => (processQuery env runs cat ds now q).fst)).map
        (fun a => (a.category, a.query_name))
      = qs.map (fun q => (cat, q.name)) := by
  induction qs with
  | nil => rfl
  | cons q t ih =>
    have hq := h q (List.mem_cons_self q t)
    cases hb : benchmark_query q.name (env q.name) runs with
    | error e =>
      rw [querySucceeds_of_error env runs q e hb] at hq
      cases hq
    | ok m =>
      obtain ⟨samples, _, _, hm⟩ := benchmark_query_ok q.name (env q.name) runs m hb
      subst hm
      have hpq : (processQuery env runs cat ds now q).fst
          = some (stampMetrics cat ds now (aggregateSamples q.name runs samples)) := by
        simp [processQuery, hb]
      rw [@List.filterMap_cons_some _ _
          (fun x => (processQuery env runs cat ds now x).fst) q t _ hpq,
        List.map_cons, ih (fun x hx => h x (List.mem_cons_of_mem q hx))]
      rfl

lemma run_all_benchmarks_order (env : String → ℕ → Except String Sample)
    (catalog : List CategoryInfo) (ds runs : ℕ) (now : String)
    (hok : ∀ q ∈ allQueryDefs catalog, querySucceeds env runs q = true) :
    (run_all_benchmarks env catalog ds runs now).fst.map
        (fun a => (a.category, a.query_name))
      = catalog.flatMap (fun ci => ci.queries.map (fun q => (ci.category, q.name))) := by
  induction catalog with
  | nil => rfl
  | cons ci t ih =>
    simp only [allQueryDefs, List.flatMap_cons, List.mem_append] at hok
    simp only [run_all_benchmarks, List.flatMap_cons, List.map_append] at ih ⊢
    rw [filterMap_names_of_all_ok env runs ci.category ds now ci.queries
      (fun q hq => hok q (Or.inl hq))]
    congr 1
    exact ih (fun q hq => hok q (Or.inr (by simpa [allQueryDefs] using hq)))

/-- C8: when every catalogued query succeeds, `run_all_benchmarks` over
the concrete catalog produces aggregates exactly in catalog-declared
order — the SIMPLE queries first, then COMPLEX, then AGGREGATED, each
in declared order — for every environment (so the order never depends
on the measured values). -/
theorem spec_c8 (env : String → ℕ → Except String Sample)
    (ds runs : ℕ) (now : String)
    (hok : ∀ q ∈ allQueryDefs benchmark_queries, querySucceeds env runs q = true) :
    (run_all_benchmarks env benchmark_queries ds runs now).fst.map
        (fun a => (a.category, a.query_name))
      = [("SIMPLE", "Simple: Profitable Movies"),
         ("SIMPLE", "Simple: Popular Recent Movies"),
         ("SIMPLE", "Simple: Long High Rated Movies"),
         ("SIMPLE", "Simple: Spanish Blockbusters"),
         ("COMPLEX", "Complex: Multi-Genre"),
         ("COMPLEX", "Complex: Genre+Country+Language"),
         ("COMPLEX", "Complex: Budget & Profit"),
         ("AGGREGATED", "Aggregate: Movies per Year"),
         ("AGGREGATED", "Aggregate: Avg Rating per Genre"),
         ("AGGREGATED", "Aggregate: Top Actors"),
         ("AGGREGATED", "Aggregate: Yearly Trends"),
         ("AGGREGATED", "Aggregate: Genre Combinations")] := by
  rw [run_all_benchmarks_order env benchmark_queries ds runs now hok]
  rfl

/-- Witness for C8 under the always-succeeding fixture environment. -/
theorem spec_c8_witness :
    (run_all_benchmarks testEnv benchmark_queries 5 1 "T").fst.map
        (fun a => (a.category, a.query_name))
      = [("SIMPLE", "Simple: Profitable Movies"),
         ("SIMPLE", "Simple: Popular Recent Movies"),
         ("SIMPLE", "Simple: Long High Rated Movies"),
         ("SIMPLE", "Simple: Spanish Blockbusters"),
         ("COMPLEX", "Complex: Multi-Genre"),
         ("COMPLEX", "Complex: Genre+Country+Language"),
         ("COMPLEX", "Complex: Budget & Profit"),
         ("AGGREGATED", "Aggregate: Movies per Year"),
         ("AGGREGATED", "Aggregate: Avg Rating per Genre"),
         ("AGGREGATED", "Aggregate: Top Actors"),
         ("AGGREGATED", "Aggregate: Yearly Trends"),
         ("AGGREGATED", "Aggregate: Genre Combinations")] :=
  spec_c8 testEnv 5 1 "T" (by decide)

/-- C1: a query whose invocation fails contributes no aggregate (the
result sequence has exactly catalog-size − 1 entries when exactly that
one query fails, and no aggregate carries its name), the console log
contains the one-line diagnostic naming the query and the error, and
all remaining queries are still processed. -/
theorem spec_c1 (env : String → ℕ → Except String Sample)
    (catalog : List CategoryInfo) (ds runs : ℕ) (now : String)
    (q : QueryDef) (e : String)
    (hone : (allQueryDefs catalog).countP (fun x => x == q) = 1)
    (hfail : benchmark_query q.name (env q.name) runs = Except.error e)
    (hok : ∀ x ∈ allQueryDefs catalog, x ≠ q → querySucceeds env runs x = true) :
    (run_all_benchmarks env catalog ds runs now).fst.length
        = (allQueryDefs catalog).length - 1
      ∧ (∀ a ∈ (run_all_benchmarks env catalog ds runs now).fst,
          a.query_name ≠ q.name)
      ∧ ("Running: " ++ q.name ++ "... ✗ Error: " ++ e)
          ∈ (run_all_benchmarks env catalog ds runs now).snd := by
  have hqfail : querySucceeds env runs q = false :=
    querySucceeds_of_error env runs q e hfail
  refine ⟨?_, ?_, ?_⟩
  · have hnot : (allQueryDefs catalog).countP
        (fun x => !(querySucceeds env runs x)) = 1 := by
      rw [List.countP_congr (q := fun x => x == q) ?_]
      · exact hone
      · intro x hx
        constructor
        · intro hnx
          by_contra hbe
          have hxq : x ≠ q := fun heq => hbe (by simp [heq])
          rw [hok x hx hxq] at hnx
          cases hnx
        · intro hbe
          have hxq : x = q := by simpa using hbe
          subst hxq
          simp [hqfail]
    have htot := countP_add_countP_not (querySucceeds env runs) (allQueryDefs catalog)
    have hres := results_length_eq_countP env catalog ds runs now
    omega
  · intro a ha
    obtain ⟨ci, hci, q', hq', m, hb, ha'⟩ :=
      mem_run_all_benchmarks env catalog ds runs now a ha
    have hsucc : querySucceeds env runs q' = true :=
      querySucceeds_of_ok env runs q' m hb
    have hne : q' ≠ q := by
      intro heq
      rw [heq, hqfail] at hsucc
      cases hsucc
    obtain ⟨samples, _, _, hm⟩ := benchmark_query_ok q'.name (env q'.name) runs m hb
    subst hm
    subst ha'
    intro hname
    apply hne
    cases q'
    cases q
    simpa [stampMetrics, aggregateSamples] using hname
  · have hqmem : q ∈ allQueryDefs catalog := by
      have hpos : 0 < (allQueryDefs catalog).countP (fun x => x == q) := by omega
      obtain ⟨x, hx, hbe⟩ := List.countP_pos_iff.mp hpos
      have hxq : x = q := by simpa using hbe
      subst hxq
      exact hx
    simp only [allQueryDefs, List.mem_flatMap] at hqmem
    obtain ⟨ci, hci, hqci⟩ := hqmem
    simp only [run_all_benchmarks, List.mem_append, List.mem_flatMap]
    refine Or.inr ⟨ci, hci, Or.inr ?_⟩
    rw [List.mem_map]
    exact ⟨q, hqci, processQuery_snd_of_error env runs ci.category ds now q e hfail⟩

/-- Witness for C1: a two-query catalog whose second query always
fails with `boom`. -/
theorem spec_c1_witness :
    (run_all_benchmarks failEnv failCatalog 5 1 "T").fst.length
        = (allQueryDefs failCatalog).length - 1
      ∧ ("Running: " ++ "BAD" ++ "... ✗ Error: " ++ "boom")
          ∈ (run_all_benchmarks failEnv failCatalog 5 1 "T").snd := by
  have h := spec_c1 failEnv failCatalog 5 1 "T" ⟨"BAD"⟩ "boom"
    (by decide) rfl (by decide)
  exact ⟨h.1, h.2.2⟩
